import Mathlib

/-!
Shallow embedding of the yt-subchannel-monitor core
(src/state_manager.py and src/youtube_monitor.py).

Modelling choices:
- Timestamps are UTC instants in whole seconds (`Int`).  A `published_at`
  string is modelled by `Timestamp`: either it parses to an instant
  (`datetime.fromisoformat` succeeds after the Z-replacement) or it is
  unparseable.  `timedelta` comparison is exact in the source; second
  granularity suffices for every property stated here.
- The `channels` JSON dict is an association list with unique keys; dict
  assignment is modelled by removing the key and appending the new pair
  (key order is irrelevant to every operation of the source).
- External effects (the YouTube fetch and the Telegram dispatch) are inputs
  to the per-channel step: `FetchResult` and `DispatchResult`.  A Python
  exception escaping the `try` body is the `Except.error` branch carrying
  the mutations performed before the raise (the source mutates
  `self.state` / `self.stats` in place).
-/

/-- A `published_at` field: either parseable to a UTC instant (seconds) or
an unparseable raw string (`datetime.fromisoformat` raises). -/
inductive Timestamp where
  | parsed (seconds : Int)
  | unparseable (raw : String)
deriving Repr, DecidableEq

/-- One entry of `state["channels"]` (state_manager.py, `update_channel_state`).
`latest_video_id` is `Option` because a legacy / malformed record that
survived `_load_state` may lack the key (`channel_state.get` in
`is_new_video`). -/
structure ChannelRecord where
  name : String
  latest_video_id : Option String
  latest_video_timestamp : Timestamp
  last_checked : Int
deriving Repr, DecidableEq

/-- `state["metadata"]` (state_manager.py, `_default_state`). -/
structure Metadata where
  last_run : Option Int
  total_notifications_sent : Nat
  version : String
deriving Repr, DecidableEq

/-- The whole persisted state (state_manager.py, `self.state`). -/
structure GlobalState where
  channels : List (String × ChannelRecord)
  metadata : Metadata
deriving Repr, DecidableEq

/-- `_default_state` (state_manager.py lines 41-54). -/
def default_state : GlobalState :=
  { channels := []
  , metadata := { last_run := none, total_notifications_sent := 0, version := "1.0.0" } }

/-- What `_load_state` finds on disk: no file, a file whose bytes are not
valid UTF-8 text (reading it inside `json.load` raises
`UnicodeDecodeError`), a decodable text that `json.load` rejects
(`JSONDecodeError`) or whose read hits an `IOError`, or a parsed state. -/
inductive StateFile where
  | missing
  | undecodable (bytes : List Nat)
  | unparseable (raw : String)
  | parsed (s : GlobalState)
deriving Repr, DecidableEq

/-- An exception escaping `_load_state`: `UnicodeDecodeError` is a
`ValueError`, not a `json.JSONDecodeError` and not an `IOError`, so the
`except (json.JSONDecodeError, IOError)` clause does not catch it. -/
inductive LoadError where
  | unicodeDecodeError (bytes : List Nat)
deriving Repr, DecidableEq

/-- `_load_state` (state_manager.py lines 24-39): load from file or fall
back to the default state; only `json.JSONDecodeError` and `IOError` are
caught, so a `UnicodeDecodeError` from an undecodable file propagates
(`Except.error`). -/
def load_state : StateFile → Except LoadError GlobalState
  | .missing => .ok default_state
  | .undecodable bytes => .error (.unicodeDecodeError bytes)
  | .unparseable _ => .ok default_state
  | .parsed s => .ok s

/-- `get_channel_state` (state_manager.py lines 70-79): `dict.get`. -/
def get_channel_state (s : GlobalState) (channel_id : String) : Option ChannelRecord :=
  s.channels.lookup channel_id

/-- `update_channel_state` (state_manager.py lines 81-98): dict assignment
`self.state["channels"][channel_id] = {...}` with `last_checked = utcnow()`. -/
def update_channel_state (s : GlobalState) (channel_id channel_name : String)
    (latest_video_id : String) (video_timestamp : Timestamp) (now : Int) : GlobalState :=
  { s with channels :=
      (s.channels.filter (fun p => p.1 != channel_id)) ++
        [(channel_id,
          { name := channel_name
          , latest_video_id := some latest_video_id
          , latest_video_timestamp := video_timestamp
          , last_checked := now })] }

/-- `is_new_video` (state_manager.py lines 100-117):
`channel_state.get("latest_video_id") != video_id`. -/
def is_new_video (s : GlobalState) (channel_id video_id : String) : Bool :=
  match get_channel_state s channel_id with
  | none => true
  | some channel_state => channel_state.latest_video_id != some video_id

/-- `increment_notification_count` (state_manager.py lines 119-121). -/
def increment_notification_count (s : GlobalState) : GlobalState :=
  { s with metadata :=
      { s.metadata with
        total_notifications_sent := s.metadata.total_notifications_sent + 1 } }

/-- The `metadata["last_run"] = datetime.utcnow().isoformat()` step of
`save_state` (state_manager.py line 59). -/
def set_last_run (s : GlobalState) (now : Int) : GlobalState :=
  { s with metadata := { s.metadata with last_run := some now } }

-- quick sanity examples (dedup, load fallback)
example : is_new_video default_state "c" "v" = true := by decide
example : load_state (.unparseable "x") = .ok default_state := rfl

/-! ## The monitor loop (youtube_monitor.py) -/

/-- The `general` / `youtube` configuration keys the core consults
(`config['general'].get('dry_run', False)` and
`config.get("youtube", \x7b\x7d).get("max_video_age_days", 7)`). -/
structure Config where
  dry_run : Bool
  max_video_age_days : Option Int
deriving Repr, DecidableEq

/-- One subscription entry (`channel_id`, `channel_title`). -/
structure Subscription where
  channel_id : String
  channel_title : String
deriving Repr, DecidableEq

/-- The video dict returned by `get_latest_video`. -/
structure Video where
  video_id : String
  title : String
  video_url : String
  published_at : Timestamp
  thumbnail_url : Option String
deriving Repr, DecidableEq

/-- Outcome of `self.youtube_client.get_latest_video(channel_id)`: the call
raises, returns a falsy value, or returns a video. -/
inductive FetchResult where
  | fetchError
  | noVideo
  | video (v : Video)
deriving Repr, DecidableEq

/-- Outcome of `telegram_client.send_notification_sync`: returns True,
returns False, or raises. -/
inductive DispatchResult where
  | ok
  | failed
  | raised
deriving Repr, DecidableEq

/-- The run statistics dict `self.stats` (youtube_monitor.py lines 44-49). -/
structure Stats where
  channels_checked : Nat
  new_videos_found : Nat
  notifications_sent : Nat
  errors : Nat
deriving Repr, DecidableEq

/-- The mutable fields of the monitor: the persisted state and the run
statistics. -/
structure MonitorState where
  state : GlobalState
  stats : Stats
deriving Repr, DecidableEq

/-- `_is_video_recent_enough` (youtube_monitor.py lines 223-253): parse the
timestamp (fail open on parse error), read `max_video_age_days` with
default 7, accept iff `now - published <= max_age` (inclusive). -/
def is_video_recent_enough (published_at : Timestamp) (now : Int) (cfg : Config) : Bool :=
  match published_at with
  | .unparseable _ => true
  | .parsed published_time =>
      decide (now - published_time ≤ cfg.max_video_age_days.getD 7 * 86400)

/-- `_send_notification` (youtube_monitor.py lines 200-221): in dry-run
mode report success without dispatching; otherwise the Telegram call's
result (`none` models the call raising). -/
def send_notification (cfg : Config) (dispatch : DispatchResult) : Option Bool :=
  if cfg.dry_run then some true
  else
    match dispatch with
    | .ok => some true
    | .failed => some false
    | .raised => none

/-- Body of the `try` block of `_check_channel_for_new_videos`
(youtube_monitor.py lines 157-194).  `Except.error` is an exception
escaping the body, carrying the in-place mutations performed before the
raise. -/
def checkChannelBody (cfg : Config) (now : Int) (sub : Subscription)
    (fetch : FetchResult) (dispatch : DispatchResult) (ms : MonitorState) :
    Except MonitorState MonitorState :=
  match fetch with
  | .fetchError => .error ms
  | .noVideo => .ok ms
  | .video latest_video =>
    if is_video_recent_enough latest_video.published_at now cfg = false then
      .ok { ms with state :=
              (update_channel_state ms.state sub.channel_id sub.channel_title
                latest_video.video_id latest_video.published_at now) }
    else if is_new_video ms.state sub.channel_id latest_video.video_id then
      let ms1 := { ms with stats :=
        { ms.stats with new_videos_found := ms.stats.new_videos_found + 1 } }
      match send_notification cfg dispatch with
      | none => .error ms1
      | some true =>
          .ok { state :=
                  (increment_notification_count
                    (update_channel_state ms1.state sub.channel_id sub.channel_title
                      latest_video.video_id latest_video.published_at now))
              , stats := { ms1.stats with
                  notifications_sent := ms1.stats.notifications_sent + 1 } }
      | some false => .ok ms1
    else .ok ms

/-- `_check_channel_for_new_videos` (youtube_monitor.py lines 145-198):
bump `channels_checked`, run the body, and catch any exception at the
channel boundary, bumping `errors`. -/
def check_channel_for_new_videos (cfg : Config) (now : Int) (sub : Subscription)
    (fetch : FetchResult) (dispatch : DispatchResult) (ms : MonitorState) : MonitorState :=
  let ms0 : MonitorState :=
    { ms with stats :=
        { ms.stats with channels_checked := ms.stats.channels_checked + 1 } }
  match checkChannelBody cfg now sub fetch dispatch ms0 with
  | .ok ms1 => ms1
  | .error ms1 =>
      { ms1 with stats := { ms1.stats with errors := ms1.stats.errors + 1 } }

/-- Per-channel external inputs of one run. -/
structure ChannelInput where
  sub : Subscription
  fetch : FetchResult
  dispatch : DispatchResult
deriving Repr, DecidableEq

/-- The per-channel loop of `run` (youtube_monitor.py lines 129-130). -/
def run_channels (cfg : Config) (now : Int) :
    List ChannelInput → MonitorState → MonitorState
  | [], ms => ms
  | i :: rest, ms =>
      run_channels cfg now rest
        (check_channel_for_new_videos cfg now i.sub i.fetch i.dispatch ms)

/-! ## The save path (state_manager.py `save_state`)

`save_state` writes with `open(path, "w")` followed by `json.dump`: opening
with mode `w` truncates the target file immediately, and the serialized
text is then written incrementally in place.  The model below makes that
write discipline explicit so the all-or-nothing property can be examined.
The serialization mirrors the dict shape `json.dump` emits (the `indent=2`
whitespace is abstracted; no property here depends on formatting). -/

/-- Quote a JSON string (escaping abstracted: the strings appearing in this
development contain no characters that need escapes). -/
def jsonStr (s : String) : String := "\"" ++ s ++ "\""

/-- Serialize one timestamp the way it sits in the JSON file (a string). -/
def render_timestamp : Timestamp → String
  | .parsed n => jsonStr (toString n)
  | .unparseable raw => jsonStr raw

/-- Serialize an optional string field. -/
def render_opt_str : Option String → String
  | none => "null"
  | some s => jsonStr s

/-- Serialize one channel record in the field order `update_channel_state`
writes. -/
def render_record (r : ChannelRecord) : String :=
  "\x7b" ++ jsonStr "name" ++ ": " ++ jsonStr r.name ++ ", "
    ++ jsonStr "latest_video_id" ++ ": " ++ render_opt_str r.latest_video_id ++ ", "
    ++ jsonStr "latest_video_timestamp" ++ ": "
    ++ render_timestamp r.latest_video_timestamp ++ ", "
    ++ jsonStr "last_checked" ++ ": " ++ jsonStr (toString r.last_checked) ++ "\x7d"

/-- Serialize the channels map entries. -/
def render_channels : List (String × ChannelRecord) → String
  | [] => ""
  | [(k, r)] => jsonStr k ++ ": " ++ render_record r
  | (k, r) :: rest => jsonStr k ++ ": " ++ render_record r ++ ", " ++ render_channels rest

/-- Serialize the metadata dict. -/
def render_metadata (m : Metadata) : String :=
  "\x7b" ++ jsonStr "last_run" ++ ": "
    ++ (match m.last_run with
        | none => "null"
        | some n => jsonStr (toString n)) ++ ", "
    ++ jsonStr "total_notifications_sent" ++ ": "
    ++ toString m.total_notifications_sent ++ ", "
    ++ jsonStr "version" ++ ": " ++ jsonStr m.version ++ "\x7d"

/-- `json.dump(self.state, f)` rendered to a string. -/
def json_dump (s : GlobalState) : String :=
  "\x7b" ++ jsonStr "channels" ++ ": \x7b" ++ render_channels s.channels ++ "\x7d, "
    ++ jsonStr "metadata" ++ ": " ++ render_metadata s.metadata ++ "\x7d"

/-- Contents of the state file after a write through `open(path, "w")`:
`none` is a completed write; `some k` is a failure after `k` characters —
the previous contents are already gone (truncated on open) and only the
first `k` characters of the new text are on disk. -/
def write_truncating (content : String) (outcome : Option Nat) : String :=
  match outcome with
  | none => content
  | some k => ⟨content.data.take k⟩

/-- `save_state` (state_manager.py lines 56-68): set `metadata["last_run"]`,
then write the serialized state over the state file in place. -/
def save_state (s : GlobalState) (now : Int) (outcome : Option Nat) : String :=
  write_truncating (json_dump (set_last_run s now)) outcome

/-- Whether processing this channel raises out of the `try` body (so the
channel-boundary handler runs). -/
def channel_raises (cfg : Config) (now : Int) (sub : Subscription)
    (fetch : FetchResult) (dispatch : DispatchResult) (ms : MonitorState) : Bool :=
  match checkChannelBody cfg now sub fetch dispatch
      { ms with stats :=
          { ms.stats with channels_checked := ms.stats.channels_checked + 1 } } with
  | .error _ => true
  | .ok _ => false

/-- The number of channels of a run whose processing raises, evaluated
along the actual execution (each channel's raise decision is taken at the
state the loop reaches it with). -/
def count_channel_errors (cfg : Config) (now : Int) :
    List ChannelInput → MonitorState → Nat
  | [], _ => 0
  | i :: rest, ms =>
      (if channel_raises cfg now i.sub i.fetch i.dispatch ms then 1 else 0)
      + count_channel_errors cfg now rest
          (check_channel_for_new_videos cfg now i.sub i.fetch i.dispatch ms)

/-! ## Concrete fixtures for witnesses and counterexamples -/

/-- Real-dispatch configuration, no `youtube.max_video_age_days` key. -/
def cfg7 : Config := { dry_run := false, max_video_age_days := none }

/-- Dry-run configuration. -/
def cfgDry : Config := { dry_run := true, max_video_age_days := none }

/-- A subscription entry. -/
def sub1 : Subscription := { channel_id := "c1", channel_title := "Chan" }

/-- A video published at instant 0. -/
def vidA : Video :=
  { video_id := "vA", title := "A", video_url := "uA"
  , published_at := .parsed 0, thumbnail_url := none }

/-- All-zero run statistics. -/
def stats0 : Stats :=
  { channels_checked := 0, new_videos_found := 0, notifications_sent := 0, errors := 0 }

/-- Fresh monitor over the default state. -/
def ms0 : MonitorState := { state := default_state, stats := stats0 }

/-- A stored record whose fingerprint is `vOld`, last checked at instant 5. -/
def recOld : ChannelRecord :=
  { name := "Chan", latest_video_id := some "vOld"
  , latest_video_timestamp := .parsed 0, last_checked := 5 }

/-- Monitor whose state already tracks channel c1 with fingerprint `vOld`. -/
def msRec : MonitorState :=
  { state := { channels := [("c1", recOld)], metadata := default_state.metadata }
  , stats := stats0 }

/-- A legacy record that lacks the `latest_video_id` key. -/
def recLegacy : ChannelRecord :=
  { name := "Chan", latest_video_id := none
  , latest_video_timestamp := .parsed 0, last_checked := 5 }

/-- Monitor whose state holds the legacy record for channel c1. -/
def msLegacy : MonitorState :=
  { state := { channels := [("c1", recLegacy)], metadata := default_state.metadata }
  , stats := stats0 }

/-! ## Claim theorems -/

/-- C1: when the candidate passes the recency gate and the dedup gate but
dispatch reports failure (returns false), the persisted `GlobalState` is
completely unchanged: no channel field is touched and
`total_notifications_sent` keeps its prior value. -/
theorem commit_skipped_on_dispatch_failure (cfg : Config) (now : Int)
    (sub : Subscription) (v : Video) (d : DispatchResult) (ms : MonitorState)
    (hrecent : is_video_recent_enough v.published_at now cfg = true)
    (hnew : is_new_video ms.state sub.channel_id v.video_id = true)
    (hfail : send_notification cfg d = some false) :
    (check_channel_for_new_videos cfg now sub (.video v) d ms).state = ms.state := by
  simp [check_channel_for_new_videos, checkChannelBody, hrecent, hnew, hfail]

/-- Witness for C1 at a concrete input. -/
theorem commit_skipped_on_dispatch_failure_witness :
    (check_channel_for_new_videos cfg7 0 sub1 (.video vidA) .failed ms0).state = ms0.state :=
  commit_skipped_on_dispatch_failure cfg7 0 sub1 vidA .failed ms0
    (by decide) (by decide) (by decide)

/-- C4: the dedup decision returns true iff no record exists for the
channel or the candidate id differs from the stored fingerprint. -/
theorem is_new_video_fingerprint_iff (s : GlobalState) (cid vid : String) :
    is_new_video s cid vid = true ↔
      (get_channel_state s cid = none ∨
        ∃ r, get_channel_state s cid = some r ∧ r.latest_video_id ≠ some vid) := by
  cases h : get_channel_state s cid with
  | none => simp [is_new_video, h]
  | some r => simp [is_new_video, h, bne_iff_ne]

/-- C5: for parseable timestamps the recency policy accepts iff
`now - published ≤ max_age_days * 86400` (default 7 days); an item exactly
`max_age_days` old is accepted and one second older is rejected. -/
theorem recency_window_inclusive_boundary :
    (∀ (cfg : Config) (now published : Int),
        is_video_recent_enough (.parsed published) now cfg = true ↔
          now - published ≤ cfg.max_video_age_days.getD 7 * 86400)
    ∧ (∀ (cfg : Config) (now : Int),
        is_video_recent_enough
          (.parsed (now - cfg.max_video_age_days.getD 7 * 86400)) now cfg = true)
    ∧ (∀ (cfg : Config) (now : Int),
        is_video_recent_enough
          (.parsed (now - (cfg.max_video_age_days.getD 7 * 86400 + 1))) now cfg = false) := by
  refine ⟨fun cfg now p => ?_, fun cfg now => ?_, fun cfg now => ?_⟩
  · simp [is_video_recent_enough]
  · simp [is_video_recent_enough]
  · simp [is_video_recent_enough]

/-- C7 (the code as written): a state file whose bytes are not valid
UTF-8 (e.g. a single 0xFF byte) makes `_load_state` raise — the
`UnicodeDecodeError` from reading the file is neither a
`json.JSONDecodeError` nor an `IOError`, so the except clause misses it
and the load is fatal, contradicting "never raises".  The missing-file
and undecoded-but-unparsable paths do fall back to the freshly
initialized default state (empty channel map, zero counter, null
`last_run`). -/
theorem load_state_raises_on_undecodable :
    load_state (.undecodable [255]) = .error (.unicodeDecodeError [255])
    ∧ load_state .missing = .ok default_state
    ∧ (∀ raw, load_state (.unparseable raw) = .ok default_state)
    ∧ default_state.channels = []
    ∧ default_state.metadata.total_notifications_sent = 0
    ∧ default_state.metadata.last_run = none :=
  ⟨rfl, rfl, fun _ => rfl, rfl, rfl, rfl⟩

/-- C10: a stored record lacking the `latest_video_id` key makes every
candidate id count as new (no raise, no suppression). -/
theorem missing_fingerprint_treated_as_new (s : GlobalState) (cid vid : String)
    (r : ChannelRecord) (hget : get_channel_state s cid = some r)
    (hnone : r.latest_video_id = none) :
    is_new_video s cid vid = true := by
  simp [is_new_video, hget, hnone]

/-- Witness for C10 at a concrete legacy record. -/
theorem missing_fingerprint_treated_as_new_witness :
    is_new_video msLegacy.state "c1" "vA" = true :=
  missing_fingerprint_treated_as_new msLegacy.state "c1" "vA" recLegacy
    (by decide) (by decide)

/-! ## Helper lemmas on the association-list channels map -/

/-- Filtering a key out of the channels map makes lookup of that key fail. -/
lemma lookup_filter_ne_self (l : List (String × ChannelRecord)) (k : String) :
    (l.filter (fun p => p.1 != k)).lookup k = none := by
  induction l with
  | nil => rfl
  | cons p rest ih =>
      obtain ⟨pk, pv⟩ := p
      rw [List.filter_cons]
      by_cases h : pk = k
      · simp [h, ih]
      · have hb : ((pk, pv).1 != k) = true := by simp [bne_iff_ne, h]
        simp [hb, List.lookup, beq_false_of_ne (Ne.symm h), ih]

/-- Lookup walks past a prefix that does not contain the key. -/
lemma lookup_append_right (l₁ l₂ : List (String × ChannelRecord)) (k : String)
    (h : l₁.lookup k = none) : (l₁ ++ l₂).lookup k = l₂.lookup k := by
  induction l₁ with
  | nil => simp
  | cons p rest ih =>
      obtain ⟨pk, pv⟩ := p
      cases hpk : k == pk with
      | true => simp [List.lookup, hpk] at h
      | false =>
          simp only [List.lookup, hpk] at h
          simp only [List.cons_append, List.lookup, hpk]
          exact ih h

/-- After `update_channel_state`, the channel's stored record is exactly the
freshly written one (its `last_checked` is `now`). -/
lemma get_update_self (s : GlobalState) (cid n vid : String) (ts : Timestamp) (now : Int) :
    get_channel_state (update_channel_state s cid n vid ts now) cid
      = some { name := n, latest_video_id := some vid
             , latest_video_timestamp := ts, last_checked := now } := by
  unfold get_channel_state update_channel_state
  rw [lookup_append_right _ _ _ (lookup_filter_ne_self _ _)]
  simp [List.lookup]

/-! ## Helper lemmas on the per-channel step -/

/-- Per-channel bookkeeping: `channels_checked` always rises by one, and
`errors` rises by one exactly when the try body raises. -/
lemma check_channel_stats_errors (cfg : Config) (now : Int) (sub : Subscription)
    (f : FetchResult) (d : DispatchResult) (ms : MonitorState) :
    (check_channel_for_new_videos cfg now sub f d ms).stats.errors
      = ms.stats.errors + (if channel_raises cfg now sub f d ms then 1 else 0)
    ∧ (check_channel_for_new_videos cfg now sub f d ms).stats.channels_checked
      = ms.stats.channels_checked + 1 := by
  cases f with
  | fetchError => simp [check_channel_for_new_videos, channel_raises, checkChannelBody]
  | noVideo => simp [check_channel_for_new_videos, channel_raises, checkChannelBody]
  | video v =>
      cases hrec : is_video_recent_enough v.published_at now cfg with
      | false =>
          simp [check_channel_for_new_videos, channel_raises, checkChannelBody, hrec]
      | true =>
          cases hnew : is_new_video ms.state sub.channel_id v.video_id with
          | false =>
              simp [check_channel_for_new_videos, channel_raises, checkChannelBody,
                hrec, hnew]
          | true =>
              cases hsend : send_notification cfg d with
              | none =>
                  simp [check_channel_for_new_videos, channel_raises, checkChannelBody,
                    hrec, hnew, hsend]
              | some b =>
                  cases b <;>
                    simp [check_channel_for_new_videos, channel_raises, checkChannelBody,
                      hrec, hnew, hsend]

/-- Per-channel `total_notifications_sent` bookkeeping: it rises by one
exactly when a fetched video passes both gates and dispatch reports
success, and is unchanged otherwise. -/
lemma check_channel_total (cfg : Config) (now : Int) (sub : Subscription)
    (fetch : FetchResult) (d : DispatchResult) (ms : MonitorState) :
    ((check_channel_for_new_videos cfg now sub fetch d ms).state.metadata.total_notifications_sent
        = ms.state.metadata.total_notifications_sent
      ∨ (check_channel_for_new_videos cfg now sub fetch d ms).state.metadata.total_notifications_sent
        = ms.state.metadata.total_notifications_sent + 1)
    ∧ ((check_channel_for_new_videos cfg now sub fetch d ms).state.metadata.total_notifications_sent
        = ms.state.metadata.total_notifications_sent + 1 ↔
      ∃ v, fetch = .video v
        ∧ is_video_recent_enough v.published_at now cfg = true
        ∧ is_new_video ms.state sub.channel_id v.video_id = true
        ∧ send_notification cfg d = some true) := by
  cases fetch with
  | fetchError => simp [check_channel_for_new_videos, checkChannelBody]
  | noVideo => simp [check_channel_for_new_videos, checkChannelBody]
  | video v =>
      cases hrec : is_video_recent_enough v.published_at now cfg with
      | false =>
          simp [check_channel_for_new_videos, checkChannelBody, hrec,
            update_channel_state]
      | true =>
          cases hnew : is_new_video ms.state sub.channel_id v.video_id with
          | false => simp [check_channel_for_new_videos, checkChannelBody, hrec, hnew]
          | true =>
              cases hsend : send_notification cfg d with
              | none =>
                  simp [check_channel_for_new_videos, checkChannelBody, hrec, hnew, hsend]
              | some b =>
                  cases b with
                  | false =>
                      simp [check_channel_for_new_videos, checkChannelBody,
                        hrec, hnew, hsend]
                  | true =>
                      simp [check_channel_for_new_videos, checkChannelBody,
                        hrec, hnew, hsend, increment_notification_count,
                        update_channel_state]

/-- C2 counterexample: with `dry_run` enabled no real dispatch happens, yet
the persisted counter still increments (dry-run reports success, so the
commit runs), refuting "never increments when dispatch is a dry-run". -/
theorem dry_run_dispatch_increments_count :
    ms0.state.metadata.total_notifications_sent = 0
    ∧ (check_channel_for_new_videos cfgDry 0 sub1 (.video vidA) .failed
        ms0).state.metadata.total_notifications_sent = 1 := by
  decide

/-- C2 (amended): `total_notifications_sent` rises by exactly one per
channel step on which dispatch *reported* success (a dry-run reports
success without dispatching), is unchanged on failed dispatch or any
skipped path, and is monotonically non-decreasing across a whole run. -/
theorem notification_count_per_reported_success :
    (∀ (cfg : Config) (now : Int) (sub : Subscription) (fetch : FetchResult)
        (d : DispatchResult) (ms : MonitorState),
      ((check_channel_for_new_videos cfg now sub fetch d ms).state.metadata.total_notifications_sent
          = ms.state.metadata.total_notifications_sent
        ∨ (check_channel_for_new_videos cfg now sub fetch d ms).state.metadata.total_notifications_sent
          = ms.state.metadata.total_notifications_sent + 1)
      ∧ ((check_channel_for_new_videos cfg now sub fetch d ms).state.metadata.total_notifications_sent
          = ms.state.metadata.total_notifications_sent + 1 ↔
        ∃ v, fetch = .video v
          ∧ is_video_recent_enough v.published_at now cfg = true
          ∧ is_new_video ms.state sub.channel_id v.video_id = true
          ∧ send_notification cfg d = some true))
    ∧ (∀ (cfg : Config) (now : Int) (inputs : List ChannelInput) (ms : MonitorState),
        ms.state.metadata.total_notifications_sent
          ≤ (run_channels cfg now inputs ms).state.metadata.total_notifications_sent) := by
  refine ⟨fun cfg now sub fetch d ms => check_channel_total cfg now sub fetch d ms,
    fun cfg now inputs => ?_⟩
  induction inputs with
  | nil => intro ms; simp [run_channels]
  | cons i rest ih =>
      intro ms
      have hstep := (check_channel_total cfg now i.sub i.fetch i.dispatch ms).1
      have htail := ih (check_channel_for_new_videos cfg now i.sub i.fetch i.dispatch ms)
      simp only [run_channels]
      rcases hstep with h | h <;> omega

/-- C6: an item once judged too old (at time `t1`) is never notified when
re-fetched as the channel's latest item in any later run (`t2 ≥ t1`, same
configuration): the recency gate fails again, so neither the run's
`notifications_sent` nor the persisted counter moves. -/
theorem stale_item_never_renotified (cfg : Config) (t1 t2 : Int)
    (sub : Subscription) (v : Video) (d : DispatchResult) (ms : MonitorState)
    (hold : is_video_recent_enough v.published_at t1 cfg = false)
    (hle : t1 ≤ t2) :
    (check_channel_for_new_videos cfg t2 sub (.video v) d ms).stats.notifications_sent
        = ms.stats.notifications_sent
    ∧ (check_channel_for_new_videos cfg t2 sub (.video v) d ms).state.metadata.total_notifications_sent
        = ms.state.metadata.total_notifications_sent := by
  have hold2 : is_video_recent_enough v.published_at t2 cfg = false := by
    cases hpub : v.published_at with
    | unparseable raw => rw [hpub] at hold; simp [is_video_recent_enough] at hold
    | parsed p =>
        rw [hpub] at hold
        simp only [is_video_recent_enough, decide_eq_false_iff_not, not_le] at hold ⊢
        omega
  simp [check_channel_for_new_videos, checkChannelBody, hold2, update_channel_state]

/-- Witness for C6: the video of instant 0 is one second too old at
604801; processing it again at that instant notifies nothing. -/
theorem stale_item_never_renotified_witness :
    (check_channel_for_new_videos cfg7 604801 sub1 (.video vidA) .ok ms0).stats.notifications_sent
        = ms0.stats.notifications_sent
    ∧ (check_channel_for_new_videos cfg7 604801 sub1 (.video vidA) .ok ms0).state.metadata.total_notifications_sent
        = ms0.state.metadata.total_notifications_sent :=
  stale_item_never_renotified cfg7 604801 604801 sub1 vidA .ok ms0 (by decide) (by decide)

/-- C8: per-run fault isolation — the loop reaches every channel (the
recursion always continues with the next channel and `channels_checked`
rises by the full length), and the `errors` tally rises by exactly the
number of channels whose processing raised. -/
theorem fault_isolation_run :
    (∀ (cfg : Config) (now : Int) (inputs : List ChannelInput) (ms : MonitorState),
        (run_channels cfg now inputs ms).stats.errors
          = ms.stats.errors + count_channel_errors cfg now inputs ms
        ∧ (run_channels cfg now inputs ms).stats.channels_checked
          = ms.stats.channels_checked + inputs.length)
    ∧ (∀ (cfg : Config) (now : Int) (i : ChannelInput) (rest : List ChannelInput)
        (ms : MonitorState),
        run_channels cfg now (i :: rest) ms
          = run_channels cfg now rest
              (check_channel_for_new_videos cfg now i.sub i.fetch i.dispatch ms)) := by
  constructor
  · intro cfg now inputs
    induction inputs with
    | nil => intro ms; simp [run_channels, count_channel_errors]
    | cons i rest ih =>
        intro ms
        obtain ⟨he, hc⟩ := ih (check_channel_for_new_videos cfg now i.sub i.fetch i.dispatch ms)
        obtain ⟨he1, hc1⟩ := check_channel_stats_errors cfg now i.sub i.fetch i.dispatch ms
        simp only [run_channels, count_channel_errors, List.length_cons]
        constructor
        · rw [he, he1]; omega
        · rw [hc, hc1]; omega
  · intro cfg now i rest ms; rfl

/-- C9 counterexample: channel c1 is examined (fetch returns no video) at
instant 100, yet its stored `last_checked` stays 5 — `last_checked` is not
updated "regardless of outcome". -/
theorem last_checked_unchanged_on_no_video :
    get_channel_state
        (check_channel_for_new_videos cfg7 100 sub1 .noVideo .ok msRec).state "c1"
      = some recOld
    ∧ recOld.last_checked = 5 := by
  decide

/-- C9 (amended): `last_checked` is set to the current time exactly on the
two paths that write the record — the recency-gate skip and the
successful-dispatch commit; on the no-item, not-new and failed-dispatch
paths the persisted state (hence the stored record) is untouched. -/
theorem last_checked_updated_only_on_write_paths (cfg : Config) (now : Int)
    (sub : Subscription) (fetch : FetchResult) (d : DispatchResult) (ms : MonitorState) :
    (fetch = .noVideo →
        (check_channel_for_new_videos cfg now sub fetch d ms).state = ms.state)
    ∧ (∀ v, fetch = .video v →
        is_video_recent_enough v.published_at now cfg = false →
        get_channel_state
            (check_channel_for_new_videos cfg now sub fetch d ms).state sub.channel_id
          = some { name := sub.channel_title, latest_video_id := some v.video_id
                 , latest_video_timestamp := v.published_at, last_checked := now })
    ∧ (∀ v, fetch = .video v →
        is_video_recent_enough v.published_at now cfg = true →
        is_new_video ms.state sub.channel_id v.video_id = false →
        (check_channel_for_new_videos cfg now sub fetch d ms).state = ms.state)
    ∧ (∀ v, fetch = .video v →
        is_video_recent_enough v.published_at now cfg = true →
        is_new_video ms.state sub.channel_id v.video_id = true →
        send_notification cfg d = some false →
        (check_channel_for_new_videos cfg now sub fetch d ms).state = ms.state)
    ∧ (∀ v, fetch = .video v →
        is_video_recent_enough v.published_at now cfg = true →
        is_new_video ms.state sub.channel_id v.video_id = true →
        send_notification cfg d = some true →
        get_channel_state
            (check_channel_for_new_videos cfg now sub fetch d ms).state sub.channel_id
          = some { name := sub.channel_title, latest_video_id := some v.video_id
                 , latest_video_timestamp := v.published_at, last_checked := now }) := by
  refine ⟨fun hf => ?_, fun v hf hrec => ?_, fun v hf hrec hnew => ?_,
    fun v hf hrec hnew hsend => ?_, fun v hf hrec hnew hsend => ?_⟩ <;> subst hf
  · simp [check_channel_for_new_videos, checkChannelBody]
  · simp [check_channel_for_new_videos, checkChannelBody, hrec]
    exact get_update_self _ _ _ _ _ _
  · simp [check_channel_for_new_videos, checkChannelBody, hrec, hnew]
  · simp [check_channel_for_new_videos, checkChannelBody, hrec, hnew, hsend]
  · simp [check_channel_for_new_videos, checkChannelBody, hrec, hnew, hsend,
      increment_notification_count, get_channel_state]
    have := get_update_self ms.state sub.channel_id sub.channel_title
      v.video_id v.published_at now
    simpa [get_channel_state] using this

/-- Witness for C9 (amended): on a successful dispatch the stored record's
`last_checked` becomes the current instant. -/
theorem last_checked_updated_only_on_write_paths_witness :
    get_channel_state
        (check_channel_for_new_videos cfg7 100 sub1 (.video vidA) .ok msRec).state "c1"
      = some { name := "Chan", latest_video_id := some "vA"
             , latest_video_timestamp := .parsed 0, last_checked := 100 } :=
  (last_checked_updated_only_on_write_paths cfg7 100 sub1 (.video vidA) .ok msRec).2.2.2.2
    vidA rfl (by decide) (by decide) (by decide)

/-- C3 (the code as written): `save_state` truncates the target in place,
so a failure one character into the write leaves a file that is neither
the previously persisted contents nor the new state — a half-written
file, contradicting the all-or-nothing requirement. -/
theorem save_state_partial_write :
    save_state msRec.state 9 (some 1) ≠ save_state msRec.state 3 none
    ∧ save_state msRec.state 9 (some 1) ≠ save_state msRec.state 9 none := by
  decide
